import Mathlib

/-!
# cs-particles: the compute kernel, the frame driver and the shader builder

A shallow embedding of `src/Particles/Application.cpp` and
`src/Particles/Application.h`.

Arithmetic conventions.  GLSL `float` / `glm::vec2` values are rationals
(`ℚ`).  The kernel is given twice, statement for statement: `CS_PARTICLES.main`
computes in exact arithmetic and is used for the one-step identities, which are
the kernel's own expressions; `CS_PARTICLES.mainRounded` rounds the result of
every operation and, with `round32`, is the kernel in binary32; it is used
where a bound over many steps depends on rounding.  All concrete inputs used
below are binary32 numbers.  C++ `int` is embedded as `Int` with an explicit
wrap to 32 bits after each multiplication.  The GLSL builtin `normalize` is
not definable over `ℚ` and is taken as a parameter of the kernel.
-/

namespace particles

/-! ## Vectors and particle records -/

/-- Two-component float vector (`glm::vec2` on the host, `vec2` in GLSL). -/
structure Vec2 where
  x : ℚ
  y : ℚ
deriving DecidableEq, Repr

namespace Vec2

/-- Componentwise sum, GLSL `a + b`. -/
def add (a b : Vec2) : Vec2 := ⟨a.x + b.x, a.y + b.y⟩

/-- Componentwise difference, GLSL `a - b`. -/
def sub (a b : Vec2) : Vec2 := ⟨a.x - b.x, a.y - b.y⟩

/-- Vector times scalar, GLSL `a * k`. -/
def scale (a : Vec2) (k : ℚ) : Vec2 := ⟨a.x * k, a.y * k⟩

instance : Add Vec2 := ⟨add⟩
instance : Sub Vec2 := ⟨sub⟩
instance : HMul Vec2 ℚ Vec2 := ⟨scale⟩

end Vec2

/-- Host-side record, `struct Particle` of `Application.h`. -/
structure Particle where
  Position : Vec2
  Velocity : Vec2
deriving DecidableEq, Repr

/-- Device-side record, `struct ParticleData` of the compute shader.  Under
`std430` it has the layout of `Particle`: `pos` aliases `Position` and `vel`
aliases `Velocity`. -/
structure ParticleData where
  pos : Vec2
  vel : Vec2
deriving DecidableEq, Repr

/-- Reinterpretation of an uploaded host record by the shader storage block. -/
def Particle.toData (p : Particle) : ParticleData := ⟨p.Position, p.Velocity⟩

/-! ## The compute kernel `CS_PARTICLES` -/

/-- The uniforms of the compute shader. -/
structure Uniforms where
  uDt : ℚ
  uScreenSize : Vec2
  uAttractTo : Vec2
  uRepulseFrom : Vec2
deriving DecidableEq, Repr

/-- Shader constant `const vec2 GRAVITY = vec2(0, -10)`. -/
def GRAVITY : Vec2 := ⟨0, -10⟩

/-- Shader constant `const float ATTRACTION_MAG = 200`. -/
def ATTRACTION_MAG : ℚ := 200

/-- Shader constant `const float REPULSION_MAG = 800`. -/
def REPULSION_MAG : ℚ := 800

/-- The value both target uniforms start from each frame, `glm::vec2(-1, -1)`. -/
def absent : Vec2 := ⟨-1, -1⟩

namespace CS_PARTICLES

/-- The body of `void main()` acting on the record `particles[gid]`, one
source statement per `let`. -/
def main (normalize : Vec2 → Vec2) (u : Uniforms) (p : ParticleData) : ParticleData :=
  -- particles[gid].vel += GRAVITY * uDt;
  let p : ParticleData := { p with vel := p.vel + GRAVITY * u.uDt }
  -- if(uAttractTo.x > 0 && uAttractTo.y > 0) { ... }
  let p : ParticleData :=
    if u.uAttractTo.x > 0 ∧ u.uAttractTo.y > 0 then
      { p with vel := p.vel + normalize (u.uAttractTo - p.pos) * ATTRACTION_MAG * u.uDt }
    else p
  -- if(uRepulseFrom.x > 0 && uRepulseFrom.y > 0) { ... }
  let p : ParticleData :=
    if u.uRepulseFrom.x > 0 ∧ u.uRepulseFrom.y > 0 then
      { p with vel := p.vel + normalize (p.pos - u.uRepulseFrom) * REPULSION_MAG * u.uDt }
    else p
  -- x boundary
  let p : ParticleData :=
    if (p.pos.x ≤ 0 ∧ p.vel.x < 0) ∨ (p.pos.x ≥ u.uScreenSize.x ∧ p.vel.x > 0) then
      { p with vel := { p.vel with x := p.vel.x * (-0.5) } }
    else p
  -- y boundary
  let p : ParticleData :=
    if (p.pos.y ≤ 0 ∧ p.vel.y < 0) ∨ (p.pos.y ≥ u.uScreenSize.y ∧ p.vel.y > 0) then
      { p with vel := { p.vel with y := p.vel.y * (-0.5) } }
    else p
  -- particles[gid].pos += particles[gid].vel * uDt;
  { p with pos := p.pos + p.vel * u.uDt }

end CS_PARTICLES

/-! ## The kernel in binary32 arithmetic

The GLSL specification has `a + b`, `a - b` and `a * b` on `float` correctly
rounded.  `round32` is round-to-nearest, ties-to-even, onto the binary32 grid
(24-bit significands, least exponent -126, subnormals included), as a function
on `ℚ`.  Overflow is not modelled: the model is the code's arithmetic as long as
magnitudes stay below `2^128`. -/

/-- Nearest integer, ties to the even one. -/
def roundEven (q : ℚ) : ℤ :=
  if q - ⌊q⌋ < 1/2 then ⌊q⌋
  else if 1/2 < q - ⌊q⌋ then ⌊q⌋ + 1
  else if ⌊q⌋ % 2 = 0 then ⌊q⌋ else ⌊q⌋ + 1

/-- The binary32 exponent of `q`: `⌊log₂ |q|⌋`, but at least `-126`. -/
def expo32 (q : ℚ) : ℤ := max (Int.log 2 |q|) (-126)

/-- The spacing of binary32 numbers in the binade of `q`. -/
def ulp32 (q : ℚ) : ℚ := 2 ^ (expo32 q - 23)

/-- The binary32 number nearest to `q`, ties to even. -/
def round32 (q : ℚ) : ℚ := roundEven (q / ulp32 q) * ulp32 q

/-- What the bounds below use of a rounding: it is monotone, commutes with
negation, and leaves its own results alone. -/
structure IsRounding (fl : ℚ → ℚ) : Prop where
  mono : Monotone fl
  odd : ∀ a, fl (-a) = -fl a
  idem : ∀ a, fl (fl a) = fl a

namespace Vec2

/-- Componentwise sum, each component rounded by `fl`. -/
def addR (fl : ℚ → ℚ) (a b : Vec2) : Vec2 := ⟨fl (a.x + b.x), fl (a.y + b.y)⟩

/-- Componentwise difference, each component rounded by `fl`. -/
def subR (fl : ℚ → ℚ) (a b : Vec2) : Vec2 := ⟨fl (a.x - b.x), fl (a.y - b.y)⟩

/-- Vector times scalar, each component rounded by `fl`. -/
def scaleR (fl : ℚ → ℚ) (a : Vec2) (k : ℚ) : Vec2 := ⟨fl (a.x * k), fl (a.y * k)⟩

end Vec2

namespace CS_PARTICLES

/-- The body of `void main()` with the result of every `+`, `-` and `*`
rounded by `fl`; statement for statement the same as `main`, which it is for
`fl = id`.  With `fl = round32` this is the kernel in binary32. -/
def mainRounded (fl : ℚ → ℚ) (normalize : Vec2 → Vec2) (u : Uniforms) (p : ParticleData) :
    ParticleData :=
  -- particles[gid].vel += GRAVITY * uDt;
  let p : ParticleData := { p with vel := Vec2.addR fl p.vel (Vec2.scaleR fl GRAVITY u.uDt) }
  -- if(uAttractTo.x > 0 && uAttractTo.y > 0) { ... }
  let p : ParticleData :=
    if u.uAttractTo.x > 0 ∧ u.uAttractTo.y > 0 then
      { p with vel := (Vec2.addR fl p.vel
          (Vec2.scaleR fl
            (Vec2.scaleR fl (normalize (Vec2.subR fl u.uAttractTo p.pos)) ATTRACTION_MAG)
            u.uDt)) }
    else p
  -- if(uRepulseFrom.x > 0 && uRepulseFrom.y > 0) { ... }
  let p : ParticleData :=
    if u.uRepulseFrom.x > 0 ∧ u.uRepulseFrom.y > 0 then
      { p with vel := (Vec2.addR fl p.vel
          (Vec2.scaleR fl
            (Vec2.scaleR fl (normalize (Vec2.subR fl p.pos u.uRepulseFrom)) REPULSION_MAG)
            u.uDt)) }
    else p
  -- x boundary
  let p : ParticleData :=
    if (p.pos.x ≤ 0 ∧ p.vel.x < 0) ∨ (p.pos.x ≥ u.uScreenSize.x ∧ p.vel.x > 0) then
      { p with vel := { p.vel with x := fl (p.vel.x * (-0.5)) } }
    else p
  -- y boundary
  let p : ParticleData :=
    if (p.pos.y ≤ 0 ∧ p.vel.y < 0) ∨ (p.pos.y ≥ u.uScreenSize.y ∧ p.vel.y > 0) then
      { p with vel := { p.vel with y := fl (p.vel.y * (-0.5)) } }
    else p
  -- particles[gid].pos += particles[gid].vel * uDt;
  { p with pos := Vec2.addR fl p.pos (Vec2.scaleR fl p.vel u.uDt) }

end CS_PARTICLES

/-- Work-group size, `layout( local_size_x = 1024, ... )`. -/
def local_size_x : Nat := 1024

/-- The effect of `glDispatchCompute(groups, 1, 1)` on the particle buffer:
invocation `gid` runs for every `gid < groups * 1024` and rewrites slot `gid`;
invocations are independent, slots past the dispatched range are untouched. -/
def glDispatchCompute (normalize : Vec2 → Vec2) (u : Uniforms) (groups : Nat)
    (particles : List ParticleData) : List ParticleData :=
  (particles.take (groups * local_size_x)).map (CS_PARTICLES.main normalize u)
    ++ particles.drop (groups * local_size_x)

/-- Uniforms of a frame in which neither target is present. -/
def gravityOnly (dt : ℚ) (screen : Vec2) : Uniforms :=
  { uDt := dt, uScreenSize := screen, uAttractTo := absent, uRepulseFrom := absent }

/-- What the windowing collaborator reports during one loop iteration. -/
structure FrameInput where
  /-- `GetWindowSize()`, width. -/
  w : Int
  /-- `GetWindowSize()`, height. -/
  h : Int
  /-- `deltaTime.count()`. -/
  dt : ℚ
  /-- `glfwGetMouseButton(m_Window, 0) == GLFW_PRESS`. -/
  button0 : Bool
  /-- `glfwGetMouseButton(m_Window, 1) == GLFW_PRESS`. -/
  button1 : Bool
  /-- `glfwGetCursorPos`, x. -/
  cursorX : ℚ
  /-- `glfwGetCursorPos`, y. -/
  cursorY : ℚ
deriving DecidableEq, Repr

/-- The pair `(attractTo, repulseFrom)` computed at the top of the
"Update particles" block. -/
def frameTargets (f : FrameInput) : Vec2 × Vec2 :=
  let attractTo : Vec2 := ⟨-1, -1⟩
  let repulseFrom : Vec2 := ⟨-1, -1⟩
  if f.button0 then
    (⟨f.cursorX, f.h - f.cursorY⟩, repulseFrom)
  else if f.button1 then
    (attractTo, ⟨f.cursorX, f.h - f.cursorY⟩)
  else
    (attractTo, repulseFrom)

/-- The four uniforms uploaded before the dispatch of a frame. -/
def frameUniforms (f : FrameInput) : Uniforms :=
  { uDt := f.dt
    uScreenSize := ⟨f.w, f.h⟩
    uAttractTo := (frameTargets f).1
    uRepulseFrom := (frameTargets f).2 }

/-! ## Closed form of one kernel invocation (used to state results) -/

/-- One axis of the boundary rule: the value the velocity component `v` has
after the boundary statement, for a particle at coordinate `pos` on an axis of
extent `extent`. -/
def bounce (pos extent v : ℚ) : ℚ :=
  if (pos ≤ 0 ∧ v < 0) ∨ (pos ≥ extent ∧ v > 0) then v * (-0.5) else v

/-- The velocity after the three additive statements of the kernel. -/
def forces (normalize : Vec2 → Vec2) (u : Uniforms) (p : ParticleData) : Vec2 :=
  let v := p.vel + GRAVITY * u.uDt
  let v := if u.uAttractTo.x > 0 ∧ u.uAttractTo.y > 0 then
      v + normalize (u.uAttractTo - p.pos) * ATTRACTION_MAG * u.uDt else v
  if u.uRepulseFrom.x > 0 ∧ u.uRepulseFrom.y > 0 then
      v + normalize (p.pos - u.uRepulseFrom) * REPULSION_MAG * u.uDt else v

/-! ## Particle counts (`Application.h`, `GeneratePaticles`) -/

/-- Reduction of a mathematical integer to the value a 32-bit two's-complement
`int` holds. -/
def wrapInt32 (n : Int) : Int := (n + 2 ^ 31) % 2 ^ 32 - 2 ^ 31

/-- Largest value of `int`. -/
def INT_MAX : Int := 2 ^ 31 - 1

/-- Constant `MinMillionPartcles = 1`. -/
def MinMillionPartcles : Int := 1

/-- Constant `MaxMillionParticles = 10`. -/
def MaxMillionParticles : Int := 10

/-- Method `int GetNumParticles() { return m_MillionParticles * 1024 * 1024; }`,
as a function of the field `m_MillionParticles`; each product is an `int`. -/
def GetNumParticles (m_MillionParticles : Int) : Int :=
  wrapInt32 (wrapInt32 (m_MillionParticles * 1024) * 1024)

/-- The host array filled and uploaded by `Application::GeneratePaticles`.
`linearRand k lo hi` stands for the `k`-th call of `glm::linearRand(lo, hi)`;
`w`, `h` is the window size.  The result is the content handed to
`glBufferData` (`sizeof(Particle) * n` bytes, i.e. `n` records). -/
def GeneratePaticles (linearRand : Nat → Vec2 → Vec2 → Vec2) (w h : Int) : List Particle :=
  let n : Int := wrapInt32 (wrapInt32 (MaxMillionParticles * 1024) * 1024)
  (List.range n.toNat).map fun i =>
    { Position := linearRand (2 * i) ⟨0, 0⟩ ⟨w, h⟩
      Velocity := linearRand (2 * i + 1) ⟨-10, -10⟩ ⟨10, 10⟩ }

/-- The first argument of `glDispatchCompute(GetNumParticles() / 1024, 1, 1)`:
`int` division truncates toward zero. -/
def dispatchGroups (m_MillionParticles : Int) : Int :=
  Int.tdiv (GetNumParticles m_MillionParticles) 1024

/-- The number of invocations a dispatch of `groups` work groups runs. -/
def invocations (groups : Int) : Int := groups * 1024

/-- The count argument of `glDrawArrays(GL_POINTS, 0, GetNumParticles())`. -/
def drawCount (m_MillionParticles : Int) : Int := GetNumParticles m_MillionParticles

/-! ## GPU objects: shaders, programs, attachments

Object names are natural numbers, `0` is never the name of an object.  The
operations follow the OpenGL rules for object lifetime: a shader that is
attached to a program when `glDeleteShader` is called is only flagged, and is
deleted once it is attached to no program. -/

/-- The shader and program objects of the context. -/
structure GLState where
  /-- Names of the shader objects that exist. -/
  shaders : List Nat
  /-- Names of the program objects that exist. -/
  programs : List Nat
  /-- Attachments, as pairs `(program, shader)`. -/
  attached : List (Nat × Nat)
  /-- Shaders flagged for deletion while still attached. -/
  flagged : List Nat
deriving DecidableEq, Repr

namespace GLState

/-- A context without shader or program objects. -/
def empty : GLState := ⟨[], [], [], []⟩

/-- Every name the state mentions. -/
def names (st : GLState) : List Nat :=
  st.shaders ++ st.programs ++ st.attached.map Prod.fst ++ st.attached.map Prod.snd ++ st.flagged

/-- An unused, non-zero name: what `glCreateShader` / `glCreateProgram` hand out. -/
def fresh (st : GLState) : Nat := st.names.foldr max 0 + 1

/-- Whether shader `s` is attached to some program. -/
def isAttached (st : GLState) (s : Nat) : Bool := st.attached.any fun a => a.2 == s

/-- Deletes every flagged shader that is attached to no program any more. -/
def sweep (st : GLState) : GLState :=
  { st with
    shaders := st.shaders.filter fun s => !(st.flagged.contains s && !st.isAttached s)
    flagged := st.flagged.filter fun s => st.isAttached s }

end GLState

/-- Call `glCreateShader(type)` for a valid shader type: creation succeeds, the
result is the new name (never 0) and the new state. -/
def glCreateShader (st : GLState) : Nat × GLState :=
  (st.fresh, { st with shaders := st.fresh :: st.shaders })

/-- Call `glCreateProgram()`: creation succeeds, the result is the new name
(never 0) and the new state. -/
def glCreateProgram (st : GLState) : Nat × GLState :=
  (st.fresh, { st with programs := st.fresh :: st.programs })

/-- Call `glAttachShader(program, shader)`; an invalid call changes nothing. -/
def glAttachShader (program shader : Nat) (st : GLState) : GLState :=
  if program ∈ st.programs ∧ shader ∈ st.shaders ∧ (program, shader) ∉ st.attached then
    { st with attached := (program, shader) :: st.attached }
  else st

/-- Call `glDetachShader(program, shader)`; an invalid call changes nothing. -/
def glDetachShader (program shader : Nat) (st : GLState) : GLState :=
  if (program, shader) ∈ st.attached then
    GLState.sweep { st with attached := st.attached.filter fun a => a ≠ (program, shader) }
  else st

/-- Call `glDeleteShader(shader)`: immediate when the shader is attached to no
program, a flag otherwise; silently ignored for a name that is no shader. -/
def glDeleteShader (shader : Nat) (st : GLState) : GLState :=
  if shader ∈ st.shaders then
    if st.isAttached shader then
      { st with flagged := shader :: st.flagged }
    else
      { st with shaders := st.shaders.filter fun s => s ≠ shader }
  else st

/-- Call `glDeleteProgram(program)` for a program that is not in use: the
program goes away and its shaders are detached. -/
def glDeleteProgram (program : Nat) (st : GLState) : GLState :=
  if program ∈ st.programs then
    GLState.sweep
      { st with
        programs := st.programs.filter fun q => q ≠ program
        attached := st.attached.filter fun a => a.1 ≠ program }
  else st

/-! ## Logging and the driver -/

/-- The three spdlog levels behind `CRIT`, `INFO`, `ERRO`. -/
inductive Severity
  | critical
  | info
  | error
deriving DecidableEq, Repr

/-- One message handed to the logging collaborator. -/
structure LogRecord where
  severity : Severity
  message : String
deriving DecidableEq, Repr

/-- The answers of the GL implementation that the code reads back. -/
structure Driver where
  /-- `GL_COMPILE_STATUS` after `glCompileShader`, by shader type and source. -/
  compileStatus : Nat → String → Bool
  /-- `glGetShaderInfoLog`. -/
  shaderInfoLog : Nat → String → String
  /-- `GL_LINK_STATUS` after `glLinkProgram`, by context state and program. -/
  linkStatus : GLState → Nat → Bool
  /-- `glGetProgramInfoLog`. -/
  programInfoLog : GLState → Nat → String

/-- GPU objects together with the log written so far. -/
structure World where
  gl : GLState
  log : List LogRecord
deriving DecidableEq, Repr

/-- Effect of `ERRO(fmt, arg)`, i.e. `spdlog::error`, with the argument spliced in. -/
def ERRO (message : String) (w : World) : World :=
  { w with log := w.log ++ [⟨Severity.error, message⟩] }

/-! ## Shader loaders -/

/-- Function `static unsigned int LoadShader(unsigned int type, const std::string& source)`. -/
def LoadShader (d : Driver) (type : Nat) (source : String) (w : World) : Nat × World :=
  -- unsigned int shader = glCreateShader(type);
  let (shader, gl) := glCreateShader w.gl
  -- glShaderSource(...); glCompileShader(shader); glGetShaderiv(..., &isCompiled);
  let isCompiled := d.compileStatus type source
  if isCompiled = false then
    let infoLog := d.shaderInfoLog type source
    -- glDeleteShader(shader);
    let gl := glDeleteShader shader gl
    -- ERRO(...); return 0;
    (0, ERRO ("Shader compilation failed: " ++ infoLog) { w with gl := gl })
  else
    (shader, { w with gl := gl })

/-- Loop `for (const auto s : shaders) glAttachShader(program, s);`. -/
def attachAll (program : Nat) (shaders : List Nat) (st : GLState) : GLState :=
  shaders.foldl (fun g s => glAttachShader program s g) st

/-- Loop `for (const auto s : shaders) glDeleteShader(s);`. -/
def deleteAll (shaders : List Nat) (st : GLState) : GLState :=
  shaders.foldl (fun g s => glDeleteShader s g) st

/-- Loop `for (const auto s : shaders) glDetachShader(program, s);`. -/
def detachAll (program : Nat) (shaders : List Nat) (st : GLState) : GLState :=
  shaders.foldl (fun g s => glDetachShader program s g) st

/-- Function `static unsigned int CreateAndLinkProgram(const std::initializer_list<unsigned int>& shaders)`. -/
def CreateAndLinkProgram (d : Driver) (shaders : List Nat) (w : World) : Nat × World :=
  -- unsigned int program = glCreateProgram();
  let (program, gl) := glCreateProgram w.gl
  let gl := attachAll program shaders gl
  -- glLinkProgram(program); glGetProgramiv(program, GL_LINK_STATUS, &isLinked);
  let isLinked := d.linkStatus gl program
  if isLinked = false then
    let infoLog := d.programInfoLog gl program
    -- glDeleteProgram(program);
    let gl' := glDeleteProgram program gl
    let gl' := deleteAll shaders gl'
    -- ERRO(...); return 0;
    (0, ERRO ("Program linking failed: " ++ infoLog) { w with gl := gl' })
  else
    let gl := detachAll program shaders gl
    (program, { w with gl := gl })

/-! ## `Application::Start` -/

/-- Enumerant `GL_VERTEX_SHADER`. -/
def GL_VERTEX_SHADER : Nat := 0x8B31

/-- Enumerant `GL_FRAGMENT_SHADER`. -/
def GL_FRAGMENT_SHADER : Nat := 0x8B30

/-- Enumerant `GL_COMPUTE_SHADER`. -/
def GL_COMPUTE_SHADER : Nat := 0x91B9

/-- Source text of the vertex shader (raw string `VS_PARTICLES`). -/
def VS_PARTICLES : String :=
  "\n\t\t#version 450\n\n\t\tuniform mat4 uProjection;\n\t\t\n\t\tlayout(location = 0) in vec2 aPosition;\t\n\n\t\tout vec4 fsColor;\t\n\n\t\tvoid main() \x7b\n\t\t\tgl_Position = uProjection * vec4(aPosition, 0.0, 1.0);\n\t\t\x7d\n\t"

/-- Source text of the fragment shader (raw string `FS_PARTICLES`). -/
def FS_PARTICLES : String :=
  "\n\t\t#version 450\n\t\t\n\t\tuniform vec4 uColor;\n\t\t\t\t\n\t\tvoid main() \x7b\n\t\t\tgl_FragColor = uColor;\n\t\t\x7d\n\n\t"

/-- Source text of the compute shader (raw string `CS_PARTICLES`); the meaning
of its `main` is `CS_PARTICLES.main`. -/
def CS_PARTICLES.source : String :=
  "\n\t\t#version 450\n\n\t\tstruct ParticleData \x7b\n\t\t\tvec2 pos;\n\t\t\tvec2 vel;\n\t\t\x7d;\t\n\n\t\tlayout(std430, binding = 0) buffer Particles \x7b\n\t\t\tParticleData particles[];\n\t\t\x7d;\t\n\n\t\tuniform float uDt;\n\t\tuniform vec2 uScreenSize;\n\t\tuniform vec2 uAttractTo;\n\t\tuniform vec2 uRepulseFrom;\n\n\t\tlayout( local_size_x = 1024, local_size_y = 1, local_size_z = 1 ) in;\n\t\t\n\t\tconst vec2 GRAVITY = vec2(0, -10);\t\t\n\t\tconst float ATTRACTION_MAG = 200;\n\t\tconst float REPULSION_MAG = 800;\n\t\n\t\tvoid main() \x7b\n\t\t\tuint gid = gl_GlobalInvocationID.x;\n\n\t\t\tparticles[gid].vel += GRAVITY * uDt;\n\n\t\t\tif(uAttractTo.x > 0 && uAttractTo.y > 0) \x7b\n\t\t\t\tparticles[gid].vel += normalize(uAttractTo - particles[gid].pos) * ATTRACTION_MAG * uDt;\n\t\t\t\x7d\n\n\t\t\tif(uRepulseFrom.x > 0 && uRepulseFrom.y > 0) \x7b\n\t\t\t\tparticles[gid].vel += normalize(particles[gid].pos- uRepulseFrom) * REPULSION_MAG * uDt;\n\t\t\t\x7d\n\t\t\t\n\t\t\tif((particles[gid].pos.x <= 0 && particles[gid].vel.x < 0) || (particles[gid].pos.x >= uScreenSize.x && particles[gid].vel.x > 0)) \x7b\n\t\t\t\tparticles[gid].vel.x *= -0.5;\n\t\t\t\x7d\n\n\t\t\tif((particles[gid].pos.y <= 0 && particles[gid].vel.y < 0) || (particles[gid].pos.y >= uScreenSize.y && particles[gid].vel.y > 0)) \x7b\n\t\t\t\tparticles[gid].vel.y *= -0.5;\n\t\t\t\x7d\n\t\n\t\t\tparticles[gid].pos += particles[gid].vel * uDt;\n\t\t\x7d\n\n\t"

/-- The GL calls of the frame loop that name a program or a particle count. -/
inductive Call
  | glUseProgram (program : Nat)
  | glGetUniformLocation (program : Nat) (name : String)
  | glDispatchCompute (groups : Int)
  | glDrawArrays (count : Int)
  | glfwTerminate
deriving DecidableEq, Repr

/-- Everything outside the program that a run of `Start` depends on. -/
structure Env where
  /-- Result of `glfwInit()`. -/
  glfwInit : Bool
  /-- Whether `glfwCreateWindow` returned a window. -/
  windowCreated : Bool
  /-- The GL implementation. -/
  driver : Driver
  /-- One entry per loop iteration that runs before `glfwWindowShouldClose`
  answers true, paired with the value the slider leaves in `m_MillionParticles`. -/
  frames : List (FrameInput × Int)

/-- The calls of one loop iteration, for the stored program handles
`compute = m_Shaders[SH_COMPUTE]`, `draw = m_Shaders[SH_DRAW]` and the current
`m_MillionParticles`. -/
def frameCalls (compute draw : Nat) (m_MillionParticles : Int) : List Call :=
  [ Call.glUseProgram compute,
    Call.glGetUniformLocation compute "uDt",
    Call.glGetUniformLocation compute "uScreenSize",
    Call.glGetUniformLocation compute "uAttractTo",
    Call.glGetUniformLocation compute "uRepulseFrom",
    Call.glDispatchCompute (dispatchGroups m_MillionParticles),
    Call.glUseProgram draw,
    Call.glGetUniformLocation draw "uProjection",
    Call.glGetUniformLocation draw "uColor",
    Call.glDrawArrays (drawCount m_MillionParticles) ]

/-- The `while (!glfwWindowShouldClose(m_Window))` loop: the calls of all
iterations, threading `m_MillionParticles` through the slider. -/
def frameLoop (compute draw : Nat) : Int → List (FrameInput × Int) → List Call
  | _, [] => []
  | m, (_, slider) :: rest => frameCalls compute draw m ++ frameLoop compute draw slider rest

/-- Conversion of an `int` to `bool`, as in `return 0;` of a `bool` function. -/
def boolOfInt (n : Int) : Bool := n != 0

/-- What a run of `Start` leaves behind. -/
structure StartResult where
  /-- The value returned. -/
  ret : Bool
  /-- Stored handle `m_Shaders[SH_DRAW]`, when the run got that far. -/
  shDraw : Option Nat
  /-- Stored handle `m_Shaders[SH_COMPUTE]`, when the run got that far. -/
  shCompute : Option Nat
  /-- The calls made, in order. -/
  calls : List Call
  /-- GPU objects and log at the end. -/
  world : World

/-- The "Load shaders" block of `Start`: the two stored handles
`(m_Shaders[SH_DRAW], m_Shaders[SH_COMPUTE])` and the resulting objects.  The
elements of a braced initialiser list are evaluated left to right. -/
def loadShaders (d : Driver) (w0 : World) : Nat × Nat × World :=
  -- m_Shaders[SH_DRAW] = CreateAndLinkProgram({ LoadShader(...), LoadShader(...) });
  let (vs, w) := LoadShader d GL_VERTEX_SHADER VS_PARTICLES w0
  let (fs, w) := LoadShader d GL_FRAGMENT_SHADER FS_PARTICLES w
  let (draw, w) := CreateAndLinkProgram d [vs, fs] w
  -- m_Shaders[SH_COMPUTE] = CreateAndLinkProgram({ LoadShader(...) });
  let (cs, w) := LoadShader d GL_COMPUTE_SHADER CS_PARTICLES.source w
  let (compute, w) := CreateAndLinkProgram d [cs] w
  (draw, compute, w)

/-- Method `bool Application::Start()`, for a run in which the window is closed
after `env.frames.length` iterations.  The result records the return value,
the stored program handles, the calls that name a program or a particle count,
and the shader and program objects; the content of the particle buffer is
described separately by `GeneratePaticles` and `glDispatchCompute`. -/
def Start (env : Env) : StartResult :=
  let w0 : World := ⟨GLState.empty, []⟩
  -- if (!glfwInit()) return false;
  if !env.glfwInit then
    ⟨false, none, none, [], w0⟩
  -- if (!m_Window) { glfwTerminate(); return false; }
  else if !env.windowCreated then
    ⟨false, none, none, [Call.glfwTerminate], w0⟩
  else
    -- CreateParticlesVertexArray(); GeneratePaticles(); then "Load shaders"
    let (draw, compute, w) := loadShaders env.driver w0
    -- while (!glfwWindowShouldClose(m_Window)) { ... }
    let calls := frameLoop compute draw 1 env.frames
    -- glfwTerminate(); return 0;
    ⟨boolOfInt 0, some draw, some compute, calls ++ [Call.glfwTerminate], w⟩

/-! ## Concrete drivers and runs used in examples -/

/-- The binary32 number nearest to 0.7, `11744051 * 2^-24` (the literal `0.7f`). -/
def f07 : ℚ := 11744051 / 16777216

/-- A driver on which every shader compiles and no program links. -/
def noLinkDriver : Driver :=
  { compileStatus := fun _ _ => true
    shaderInfoLog := fun _ _ => ""
    linkStatus := fun _ _ => false
    programInfoLog := fun _ _ => "link failed" }

/-- A context holding two live, unattached shader objects. -/
def twoShaders : World := ⟨⟨[2, 1], [], [], []⟩, []⟩

namespace Vec2

@[simp] theorem add_x (a b : Vec2) : (a + b).x = a.x + b.x := rfl
@[simp] theorem add_y (a b : Vec2) : (a + b).y = a.y + b.y := rfl
@[simp] theorem sub_x (a b : Vec2) : (a - b).x = a.x - b.x := rfl
@[simp] theorem sub_y (a b : Vec2) : (a - b).y = a.y - b.y := rfl
@[simp] theorem mul_x (a : Vec2) (k : ℚ) : (a * k).x = a.x * k := rfl
@[simp] theorem mul_y (a : Vec2) (k : ℚ) : (a * k).y = a.y * k := rfl

theorem ext_iff2 (a b : Vec2) : a = b ↔ a.x = b.x ∧ a.y = b.y := by
  cases a; cases b; simp

end Vec2

/-- The kernel's velocity is the boundary rule applied, axis by axis, to the
velocity after the additive statements. -/
theorem main_vel (normalize : Vec2 → Vec2) (u : Uniforms) (p : ParticleData) :
    (CS_PARTICLES.main normalize u p).vel =
      ⟨bounce p.pos.x u.uScreenSize.x (forces normalize u p).x,
       bounce p.pos.y u.uScreenSize.y (forces normalize u p).y⟩ := by
  simp only [CS_PARTICLES.main, forces, bounce]
  split_ifs <;> simp_all [Vec2.ext_iff2]

/-- The kernel's position is the old position advanced by the new velocity. -/
theorem main_pos (normalize : Vec2 → Vec2) (u : Uniforms) (p : ParticleData) :
    (CS_PARTICLES.main normalize u p).pos =
      p.pos + (CS_PARTICLES.main normalize u p).vel * u.uDt := by
  simp only [CS_PARTICLES.main]
  split_ifs <;> rfl

theorem forces_gravityOnly (normalize : Vec2 → Vec2) (dt : ℚ) (screen : Vec2)
    (p : ParticleData) :
    forces normalize (gravityOnly dt screen) p = ⟨p.vel.x, p.vel.y + (-10) * dt⟩ := by
  norm_num [forces, gravityOnly, absent, GRAVITY, Vec2.ext_iff2]

theorem forces_noTargets (normalize : Vec2 → Vec2) (u : Uniforms) (p : ParticleData)
    (ha : u.uAttractTo = absent) (hr : u.uRepulseFrom = absent) :
    forces normalize u p = ⟨p.vel.x, p.vel.y + (-10) * u.uDt⟩ := by
  norm_num [forces, ha, hr, absent, GRAVITY, Vec2.ext_iff2]

/-- A dispatch rewrites each slot in its range with the kernel's result for
that slot and leaves the other slots alone. -/
theorem glDispatchCompute_slot (normalize : Vec2 → Vec2) (u : Uniforms) (groups : Nat)
    (particles : List ParticleData) (gid : Nat) (hl : gid < particles.length) :
    (glDispatchCompute normalize u groups particles)[gid]? =
      if gid < groups * local_size_x then
        some (CS_PARTICLES.main normalize u (particles.get ⟨gid, hl⟩))
      else some (particles.get ⟨gid, hl⟩) := by
  unfold glDispatchCompute
  split_ifs with h
  · rw [List.getElem?_append_left (by simp [h, hl])]
    simp [List.getElem?_take, h, List.getElem?_eq_getElem hl]
  · have hle : groups * local_size_x ≤ gid := not_lt.mp h
    rw [List.getElem?_append_right (by simp; exact Or.inl hle)]
    simp [List.getElem?_drop, Nat.min_eq_left (le_trans hle (le_of_lt hl)),
      Nat.add_sub_cancel' hle, List.getElem?_eq_getElem hl]

/-! ## C1: gravity-only step -/

/-- C1, as the code has it: in a step with both targets absent, the y-velocity
becomes `vy + (-10) * dt` unless the y boundary statement fires on that value,
and the x-velocity is unchanged unless the x boundary statement fires. -/
theorem C1_gravity_step_when_not_bouncing (normalize : Vec2 → Vec2) (dt : ℚ) (screen : Vec2)
    (p : ParticleData) :
    (¬ ((p.pos.y ≤ 0 ∧ p.vel.y + (-10) * dt < 0) ∨
          (p.pos.y ≥ screen.y ∧ p.vel.y + (-10) * dt > 0)) →
        (CS_PARTICLES.main normalize (gravityOnly dt screen) p).vel.y
          = p.vel.y + (-10) * dt) ∧
    (¬ ((p.pos.x ≤ 0 ∧ p.vel.x < 0) ∨ (p.pos.x ≥ screen.x ∧ p.vel.x > 0)) →
        (CS_PARTICLES.main normalize (gravityOnly dt screen) p).vel.x = p.vel.x) := by
  rw [main_vel, forces_gravityOnly]
  constructor
  · intro h
    simp only [bounce, gravityOnly]
    rw [if_neg h]
  · intro h
    simp only [bounce, gravityOnly]
    rw [if_neg h]

/-- C1 witness: a particle strictly inside a 1280 x 768 screen, `dt = 1/2`. -/
theorem C1_gravity_step_witness :
    (CS_PARTICLES.main id (gravityOnly (1/2) ⟨1280, 768⟩) ⟨⟨100, 100⟩, ⟨3, 4⟩⟩).vel.y
        = 4 + (-10) * (1/2) ∧
    (CS_PARTICLES.main id (gravityOnly (1/2) ⟨1280, 768⟩) ⟨⟨100, 100⟩, ⟨3, 4⟩⟩).vel.x = 3 :=
  ⟨(C1_gravity_step_when_not_bouncing id (1/2) ⟨1280, 768⟩ ⟨⟨100, 100⟩, ⟨3, 4⟩⟩).1
      (by norm_num),
   (C1_gravity_step_when_not_bouncing id (1/2) ⟨1280, 768⟩ ⟨⟨100, 100⟩, ⟨3, 4⟩⟩).2
      (by norm_num)⟩

/-- C1 counterexample: with both targets absent, `dt = 1/2`, a 1280 x 768
screen and a particle at `(0, 100)` with velocity `(-5, 0)`, the x-velocity
after the step is `5/2`, not the `-5` it had before. -/
theorem C1_counterexample :
    ¬ ((CS_PARTICLES.main id (gravityOnly (1/2) ⟨1280, 768⟩) ⟨⟨0, 100⟩, ⟨-5, 0⟩⟩).vel.y
          = 0 + (-10) * (1/2) ∧
       (CS_PARTICLES.main id (gravityOnly (1/2) ⟨1280, 768⟩) ⟨⟨0, 100⟩, ⟨-5, 0⟩⟩).vel.x
          = -5) := by
  rw [main_vel, forces_gravityOnly]
  norm_num [bounce, gravityOnly]

/-! ## C2: boundary bounce -/

/-- C2: in a step with both targets absent, a particle at or below 0 on x with
negative x-velocity `v`, or at or above the screen width with positive `v`,
leaves the step with x-velocity `-0.5 * v`; on y the same holds for the
velocity after gravity, `vy + (-10) * dt`. -/
theorem C2_boundary_bounce (normalize : Vec2 → Vec2) (dt : ℚ) (screen : Vec2)
    (p : ParticleData) :
    (p.pos.x ≤ 0 → p.vel.x < 0 →
        (CS_PARTICLES.main normalize (gravityOnly dt screen) p).vel.x = -0.5 * p.vel.x) ∧
    (p.pos.x ≥ screen.x → p.vel.x > 0 →
        (CS_PARTICLES.main normalize (gravityOnly dt screen) p).vel.x = -0.5 * p.vel.x) ∧
    (p.pos.y ≤ 0 → p.vel.y + (-10) * dt < 0 →
        (CS_PARTICLES.main normalize (gravityOnly dt screen) p).vel.y
          = -0.5 * (p.vel.y + (-10) * dt)) ∧
    (p.pos.y ≥ screen.y → p.vel.y + (-10) * dt > 0 →
        (CS_PARTICLES.main normalize (gravityOnly dt screen) p).vel.y
          = -0.5 * (p.vel.y + (-10) * dt)) := by
  rw [main_vel, forces_gravityOnly]
  simp only [bounce, gravityOnly]
  refine ⟨fun h1 h2 => ?_, fun h1 h2 => ?_, fun h1 h2 => ?_, fun h1 h2 => ?_⟩
  · rw [if_pos (Or.inl ⟨h1, h2⟩)]; ring
  · rw [if_pos (Or.inr ⟨h1, h2⟩)]; ring
  · rw [if_pos (Or.inl ⟨h1, h2⟩)]; ring
  · rw [if_pos (Or.inr ⟨h1, h2⟩)]; ring

/-- C2 witness: `position.x = 0`, `velocity.x = -5` yields `velocity.x = 2.5`. -/
theorem C2_boundary_bounce_witness :
    (CS_PARTICLES.main id (gravityOnly (1/2) ⟨1280, 768⟩) ⟨⟨0, 100⟩, ⟨-5, 0⟩⟩).vel.x = 2.5 := by
  have h := (C2_boundary_bounce id (1/2) ⟨1280, 768⟩ ⟨⟨0, 100⟩, ⟨-5, 0⟩⟩).1
    (by norm_num) (by norm_num)
  rw [h]; norm_num

/-! ## C3: semi-implicit Euler -/

/-- C3: for every particle and every uniform input, the position after a step
is the position before it plus the velocity after the step times `dt` (no
other statement touches the position, so it is never clamped); and this is
not in general the position obtained from the velocity before the step. -/
theorem C3_semi_implicit_euler (normalize : Vec2 → Vec2) :
    (∀ (u : Uniforms) (p : ParticleData),
      (CS_PARTICLES.main normalize u p).pos
        = p.pos + (CS_PARTICLES.main normalize u p).vel * u.uDt) ∧
    (∃ (u : Uniforms) (p : ParticleData),
      (CS_PARTICLES.main normalize u p).pos ≠ p.pos + p.vel * u.uDt) := by
  constructor
  · intro u p
    simp only [CS_PARTICLES.main]
    split_ifs <;> rfl
  · refine ⟨gravityOnly 1 ⟨1280, 768⟩, ⟨⟨100, 100⟩, ⟨0, 0⟩⟩, ?_⟩
    rw [main_pos, main_vel, forces_gravityOnly]
    norm_num [bounce, gravityOnly, Vec2.ext_iff2]

/-! ## binary32 rounding is monotone, odd and idempotent -/

theorem roundEven_bounds (q : ℚ) : ⌊q⌋ ≤ roundEven q ∧ roundEven q ≤ ⌊q⌋ + 1 := by
  unfold roundEven
  split_ifs <;> constructor <;> omega

theorem roundEven_mono {a b : ℚ} (h : a ≤ b) : roundEven a ≤ roundEven b := by
  have hf : ⌊a⌋ ≤ ⌊b⌋ := Int.floor_mono h
  rcases lt_or_eq_of_le hf with hlt | heq
  · have h1 := (roundEven_bounds a).2
    have h2 := (roundEven_bounds b).1
    omega
  · unfold roundEven
    rw [heq]
    rw [heq] at *
    split_ifs <;> first | omega | (exfalso; linarith)

theorem roundEven_intCast (n : ℤ) : roundEven (n : ℚ) = n := by
  unfold roundEven
  simp

theorem roundEven_neg (q : ℚ) : roundEven (-q) = -roundEven q := by
  have h0 := Int.floor_le q
  have h1 := Int.lt_floor_add_one q
  rcases eq_or_lt_of_le h0 with he | hlt
  · have : -q = ((-⌊q⌋ : ℤ) : ℚ) := by push_cast; linarith
    rw [this, roundEven_intCast]
    have h2 : q = ((⌊q⌋ : ℤ) : ℚ) := he.symm
    conv_rhs => rw [h2, roundEven_intCast]
  · have hfl : ⌊-q⌋ = -⌊q⌋ - 1 := by
      rw [Int.floor_eq_iff]; push_cast; constructor <;> linarith
    unfold roundEven
    rw [hfl]
    push_cast
    split_ifs <;> first | omega | (exfalso; linarith)

theorem roundEven_eq_of_near (q : ℚ) (n : ℤ) (h : |q - n| < 1/2) : roundEven q = n := by
  obtain ⟨h1, h2⟩ := abs_lt.mp h
  rcases le_or_lt (n : ℚ) q with hle | hlt
  · have hfl : ⌊q⌋ = n := by
      rw [Int.floor_eq_iff]; constructor <;> linarith
    unfold roundEven
    rw [hfl]
    rw [if_pos (by linarith)]
  · have hfl : ⌊q⌋ = n - 1 := by
      rw [Int.floor_eq_iff]; push_cast; constructor <;> linarith
    unfold roundEven
    rw [hfl]
    push_cast
    rw [if_neg (by linarith), if_pos (by linarith)]
    ring

theorem ulp32_pos (q : ℚ) : 0 < ulp32 q := by
  unfold ulp32; positivity

theorem expo32_ge (q : ℚ) : -126 ≤ expo32 q := le_max_right _ _

theorem expo32_neg (q : ℚ) : expo32 (-q) = expo32 q := by
  unfold expo32; rw [abs_neg]

theorem round32_neg (q : ℚ) : round32 (-q) = -round32 q := by
  unfold round32 ulp32
  rw [expo32_neg, neg_div, roundEven_neg]
  push_cast
  ring

theorem round32_zero : round32 0 = 0 := by
  unfold round32
  rw [zero_div]
  have := roundEven_intCast 0
  simp only [Int.cast_zero] at this
  rw [this]; simp

theorem lt_two_zpow_expo32 (q : ℚ) : |q| < 2 ^ (expo32 q + 1) := by
  have h := @Int.lt_zpow_succ_log_self ℚ _ _ 2 (by norm_num) |q|
  have h2 : ((2 : ℕ) : ℚ) ^ (Int.log 2 |q| + 1) ≤ (2 : ℚ) ^ (expo32 q + 1) := by
    push_cast
    apply zpow_le_zpow_right₀ (by norm_num)
    unfold expo32
    have := le_max_left (Int.log 2 |q|) (-126)
    omega
  exact lt_of_lt_of_le h h2

theorem two_pow_mul_ulp (e : ℤ) (k : ℕ) :
    ((2 ^ k : ℤ) : ℚ) * 2 ^ (e - 23) = 2 ^ (e - 23 + k) := by
  push_cast
  rw [← zpow_natCast, ← zpow_add₀ (by norm_num : (2 : ℚ) ≠ 0)]
  congr 1
  ring

/-- A value whose quotient by its own spacing is an integer is left alone. -/
theorem round32_eq_self_of_int {r : ℚ} (k : ℤ) (h : r / ulp32 r = k) : round32 r = r := by
  unfold round32
  rw [h, roundEven_intCast, ← h]
  exact div_mul_cancel₀ r (ulp32_pos r).ne'

theorem two_zpow_sub_eq_int (a b : ℤ) (h : b ≤ a) :
    (2 : ℚ) ^ (a - 23) / 2 ^ (b - 23) = ((2 ^ (a - b).toNat : ℤ) : ℚ) := by
  rw [← zpow_sub₀ (by norm_num : (2 : ℚ) ≠ 0)]
  push_cast
  rw [← zpow_natCast]
  congr 1
  rw [Int.toNat_of_nonneg (by omega)]
  ring

theorem round32_int_mul_pos (n : ℤ) (e : ℤ) (he : -126 ≤ e) (hn0 : 0 < n) (hn : n ≤ 2 ^ 24) :
    round32 (n * 2 ^ (e - 23)) = n * 2 ^ (e - 23) := by
  have hu : (0 : ℚ) < 2 ^ (e - 23) := by positivity
  have hnq : (0 : ℚ) < n := by exact_mod_cast hn0
  have hr : (0 : ℚ) < n * 2 ^ (e - 23) := mul_pos hnq hu
  rcases lt_or_eq_of_le hn with hlt | heq
  · -- the value is below 2^(e+1), so its exponent is at most e
    have hlt' : (n : ℚ) < ((2 ^ 24 : ℤ) : ℚ) := by exact_mod_cast hlt
    have h1 : (n : ℚ) * 2 ^ (e - 23) < ((2 : ℕ) : ℚ) ^ (e + 1) := by
      have e1 : ((2 ^ 24 : ℤ) : ℚ) * 2 ^ (e - 23) = ((2 : ℕ) : ℚ) ^ (e + 1) := by
        rw [two_pow_mul_ulp]; push_cast; congr 1; ring
      rw [← e1]
      exact mul_lt_mul_of_pos_right hlt' hu
    have h2 : Int.log 2 ((n : ℚ) * 2 ^ (e - 23)) < e + 1 :=
      (Int.lt_zpow_iff_log_lt (by norm_num) hr).mp h1
    have h3 : expo32 ((n : ℚ) * 2 ^ (e - 23)) ≤ e := by
      unfold expo32
      rw [abs_of_pos hr]
      exact max_le (by omega) he
    apply round32_eq_self_of_int (n * 2 ^ (e - expo32 ((n : ℚ) * 2 ^ (e - 23))).toNat)
    unfold ulp32
    rw [mul_div_assoc, two_zpow_sub_eq_int _ _ h3]
    push_cast
    rfl
  · -- the value is 2^(e+1)
    have hval : (n : ℚ) * 2 ^ (e - 23) = ((2 : ℕ) : ℚ) ^ (e + 1) := by
      rw [heq, two_pow_mul_ulp]; push_cast; congr 1; ring
    have h1 : e + 1 ≤ Int.log 2 ((n : ℚ) * 2 ^ (e - 23)) :=
      (Int.zpow_le_iff_le_log (by norm_num) hr).mp (le_of_eq hval.symm)
    have h2 : Int.log 2 ((n : ℚ) * 2 ^ (e - 23)) < e + 2 := by
      apply (Int.lt_zpow_iff_log_lt (by norm_num) hr).mp
      rw [hval]
      exact zpow_lt_zpow_right₀ (by norm_num) (by omega)
    have h3 : expo32 ((n : ℚ) * 2 ^ (e - 23)) = e + 1 := by
      unfold expo32
      rw [abs_of_pos hr]
      have : Int.log 2 ((n : ℚ) * 2 ^ (e - 23)) = e + 1 := by omega
      rw [this]
      exact max_eq_left (by omega)
    apply round32_eq_self_of_int (2 ^ 23)
    unfold ulp32
    rw [h3, hval]
    push_cast
    rw [← zpow_sub₀ (by norm_num : (2 : ℚ) ≠ 0)]
    have e23 : e + 1 - (e + 1 - 23) = 23 := by ring
    rw [e23]
    norm_num

theorem round32_int_mul (n : ℤ) (e : ℤ) (he : -126 ≤ e) (hn : |n| ≤ 2 ^ 24) :
    round32 (n * 2 ^ (e - 23)) = n * 2 ^ (e - 23) := by
  obtain ⟨h1, h2⟩ := abs_le.mp hn
  rcases lt_trichotomy 0 n with h | h | h
  · exact round32_int_mul_pos n e he h h2
  · rw [← h]; simp [round32_zero]
  · have := round32_int_mul_pos (-n) e he (by omega) (by omega)
    push_cast at this
    rw [neg_mul, round32_neg] at this
    linarith

theorem roundEven_abs_le (q : ℚ) : |roundEven (q / ulp32 q)| ≤ 2 ^ 24 := by
  have hu := ulp32_pos q
  have hlt := lt_two_zpow_expo32 q
  have e : ((2 ^ 24 : ℤ) : ℚ) * ulp32 q = 2 ^ (expo32 q + 1) := by
    unfold ulp32
    rw [two_pow_mul_ulp]
    congr 1
    push_cast
    ring
  obtain ⟨h1, h2⟩ := abs_lt.mp hlt
  have hhi : q / ulp32 q ≤ ((2 ^ 24 : ℤ) : ℚ) := by
    rw [div_le_iff₀ hu, e]; exact h2.le
  have hlo : ((-(2 ^ 24) : ℤ) : ℚ) ≤ q / ulp32 q := by
    rw [le_div_iff₀ hu]
    have : ((-(2 ^ 24) : ℤ) : ℚ) * ulp32 q = -(2 ^ (expo32 q + 1)) := by
      rw [← e]; push_cast; ring
    rw [this]; exact h1.le
  have a1 := roundEven_mono hhi
  have a2 := roundEven_mono hlo
  rw [roundEven_intCast] at a1 a2
  exact abs_le.mpr ⟨a2, a1⟩

theorem round32_idem (q : ℚ) : round32 (round32 q) = round32 q := by
  have h := round32_int_mul (roundEven (q / ulp32 q)) (expo32 q) (expo32_ge q)
    (roundEven_abs_le q)
  exact h

theorem round32_eval (q : ℚ) (e n : ℤ) (he : -126 ≤ e) (h1 : (2 : ℚ) ^ e ≤ |q|)
    (h2 : |q| < 2 ^ (e + 1)) (hn : |q / 2 ^ (e - 23) - n| < 1 / 2) :
    round32 q = n * 2 ^ (e - 23) := by
  have hpos : (0 : ℚ) < |q| := lt_of_lt_of_le (by positivity) h1
  have a1 : e ≤ Int.log 2 |q| :=
    (Int.zpow_le_iff_le_log (by norm_num) hpos).mp (by exact_mod_cast h1)
  have a2 : Int.log 2 |q| < e + 1 :=
    (Int.lt_zpow_iff_log_lt (by norm_num) hpos).mp (by exact_mod_cast h2)
  have hexp : expo32 q = e := by
    unfold expo32
    have : Int.log 2 |q| = e := by omega
    rw [this]; exact max_eq_left he
  unfold round32 ulp32
  rw [hexp, roundEven_eq_of_near _ n hn]

theorem round32_seven_tenths : round32 (7 / 10) = f07 := by
  rw [round32_eval (7 / 10) (-1) 11744051 (by norm_num) (by norm_num [abs_of_pos])
    (by norm_num [abs_of_pos]) (by norm_num [abs_lt])]
  norm_num [f07]

theorem id_isRounding : IsRounding id :=
  ⟨monotone_id, fun _ => rfl, fun _ => rfl⟩

/-- The exact kernel is the rounded kernel for the identity rounding. -/
theorem mainRounded_id (normalize : Vec2 → Vec2) (u : Uniforms) (p : ParticleData) :
    CS_PARTICLES.mainRounded id normalize u p = CS_PARTICLES.main normalize u p := by
  have hadd : ∀ a b : Vec2, Vec2.addR id a b = a + b := fun _ _ => rfl
  have hsub : ∀ a b : Vec2, Vec2.subR id a b = a - b := fun _ _ => rfl
  have hmul : ∀ (a : Vec2) (k : ℚ), Vec2.scaleR id a k = a * k := fun _ _ => rfl
  simp only [CS_PARTICLES.mainRounded, CS_PARTICLES.main, hadd, hsub, hmul, id]

/-! ## C4: bounded escape on the x axis -/

theorem f07_float : round32 f07 = f07 := by
  rw [← round32_seven_tenths, round32_idem]

theorem forces_noRepulse (normalize : Vec2 → Vec2) (u : Uniforms) (p : ParticleData)
    (hr : u.uRepulseFrom = absent) :
    forces normalize u p =
      if 0 < u.uAttractTo.x ∧ 0 < u.uAttractTo.y then
        p.vel + GRAVITY * u.uDt + normalize (u.uAttractTo - p.pos) * ATTRACTION_MAG * u.uDt
      else p.vel + GRAVITY * u.uDt := by
  have h : ¬ (u.uRepulseFrom.x > 0 ∧ u.uRepulseFrom.y > 0) := by
    rw [hr]; norm_num [absent]
  simp only [forces]
  rw [if_neg h]

theorem frameTargets_button0 (f : FrameInput) (hb : f.button0 = true) :
    frameTargets f = (⟨f.cursorX, f.h - f.cursorY⟩, absent) := by
  simp [frameTargets, hb, absent]

/-- C6, as the code has it: in a frame with the primary button held and the
cursor at `(x, y)` in a window of height `h`, the attractor uniform is
`(x, h - y)` and the repulsor uniform is the sentinel.  When `x > 0` and
`h - y > 0`, the step adds `normalize((x, h - y) - pos) * 200 * dt` to the
velocity of every particle, after gravity and before the boundary statement.
When `x ≤ 0` or `h - y ≤ 0`, the kernel adds no attraction. -/
theorem C6_attractor_applied_when_positive (normalize : Vec2 → Vec2) (f : FrameInput)
    (hb : f.button0 = true) (p : ParticleData) :
    (frameUniforms f).uAttractTo = ⟨f.cursorX, f.h - f.cursorY⟩ ∧
    (frameUniforms f).uRepulseFrom = absent ∧
    (0 < f.cursorX → 0 < (f.h : ℚ) - f.cursorY →
      (CS_PARTICLES.main normalize (frameUniforms f) p).vel =
        ⟨bounce p.pos.x f.w
            (p.vel + GRAVITY * f.dt +
              normalize (⟨f.cursorX, f.h - f.cursorY⟩ - p.pos) * ATTRACTION_MAG * f.dt).x,
         bounce p.pos.y f.h
            (p.vel + GRAVITY * f.dt +
              normalize (⟨f.cursorX, f.h - f.cursorY⟩ - p.pos) * ATTRACTION_MAG * f.dt).y⟩) ∧
    (¬ (0 < f.cursorX ∧ 0 < (f.h : ℚ) - f.cursorY) →
      (CS_PARTICLES.main normalize (frameUniforms f) p).vel =
        ⟨bounce p.pos.x f.w (p.vel + GRAVITY * f.dt).x,
         bounce p.pos.y f.h (p.vel + GRAVITY * f.dt).y⟩) := by
  have ht := frameTargets_button0 f hb
  have ha : (frameUniforms f).uAttractTo = ⟨f.cursorX, f.h - f.cursorY⟩ := by
    simp [frameUniforms, ht]
  have hr : (frameUniforms f).uRepulseFrom = absent := by
    simp [frameUniforms, ht]
  refine ⟨ha, hr, fun hx hy => ?_, fun hn => ?_⟩
  · rw [main_vel]
    have hf : forces normalize (frameUniforms f) p =
        p.vel + GRAVITY * f.dt +
          normalize (⟨f.cursorX, f.h - f.cursorY⟩ - p.pos) * ATTRACTION_MAG * f.dt := by
      rw [forces_noRepulse normalize _ p hr, ha, if_pos ⟨hx, hy⟩]
      rfl
    rw [hf]
    simp [frameUniforms]
  · rw [main_vel]
    have hf : forces normalize (frameUniforms f) p = p.vel + GRAVITY * f.dt := by
      rw [forces_noRepulse normalize _ p hr, ha, if_neg hn]
      rfl
    rw [hf]
    simp [frameUniforms]

/-- C6 witness: cursor at `(300, 368)` in a 1280 x 768 window, so the attractor
is `(300, 400)`; the particle at `(297, 396)` is at distance 5 from it, and
`v ↦ v / 5` is `normalize` on vectors of length 5. -/
theorem C6_attractor_applied_witness :
    (CS_PARTICLES.main (fun v => ⟨v.x / 5, v.y / 5⟩)
        (frameUniforms ⟨1280, 768, 1/2, true, false, 300, 368⟩)
        ⟨⟨297, 396⟩, ⟨0, 0⟩⟩).vel = ⟨60, 75⟩ := by
  have h := (C6_attractor_applied_when_positive (fun v => ⟨v.x / 5, v.y / 5⟩)
    ⟨1280, 768, 1/2, true, false, 300, 368⟩ rfl ⟨⟨297, 396⟩, ⟨0, 0⟩⟩).2.2.1
    (by norm_num) (by norm_num)
  rw [h]
  norm_num [bounce, GRAVITY, ATTRACTION_MAG, Vec2.ext_iff2]

/-- C6 counterexample: primary button held, cursor at `(0, 100)` in a window
of height 768.  The attractor uniform is `(0, 668)`, the particle at
`(300, 268)` is not at that point, and yet whatever `normalize` is the
velocity after the step is gravity alone: it is not `vel + GRAVITY * dt` plus
`200 * dt` times any unit vector. -/
theorem C6_counterexample :
    (frameUniforms ⟨1280, 768, 1/2, true, false, 0, 100⟩).uAttractTo = ⟨0, 668⟩ ∧
    (⟨300, 268⟩ : Vec2) ≠ ⟨0, 668⟩ ∧
    ∀ normalize : Vec2 → Vec2,
      (CS_PARTICLES.main normalize (frameUniforms ⟨1280, 768, 1/2, true, false, 0, 100⟩)
          ⟨⟨300, 268⟩, ⟨0, 0⟩⟩).vel = ⟨0, -5⟩ ∧
      ¬ ∃ n : Vec2, n.x * n.x + n.y * n.y = 1 ∧
          (CS_PARTICLES.main normalize (frameUniforms ⟨1280, 768, 1/2, true, false, 0, 100⟩)
            ⟨⟨300, 268⟩, ⟨0, 0⟩⟩).vel
          = (⟨0, 0⟩ : Vec2) + GRAVITY * (1/2 : ℚ) + n * ATTRACTION_MAG * (1/2 : ℚ) := by
  have hv : ∀ normalize : Vec2 → Vec2,
      (CS_PARTICLES.main normalize (frameUniforms ⟨1280, 768, 1/2, true, false, 0, 100⟩)
          ⟨⟨300, 268⟩, ⟨0, 0⟩⟩).vel = ⟨0, -5⟩ := by
    intro normalize
    rw [main_vel]
    norm_num [forces, frameUniforms, frameTargets, bounce, GRAVITY, Vec2.ext_iff2]
  refine ⟨by norm_num [frameUniforms, frameTargets], by norm_num [Vec2.ext_iff2], ?_⟩
  intro normalize
  refine ⟨hv normalize, ?_⟩
  rintro ⟨n, hn, he⟩
  rw [hv normalize] at he
  simp only [Vec2.ext_iff2, Vec2.add_x, Vec2.add_y, Vec2.mul_x, Vec2.mul_y, GRAVITY,
    ATTRACTION_MAG] at he
  obtain ⟨h1, h2⟩ := he
  have hx : n.x = 0 := by linarith
  have hy : n.y = 0 := by linarith
  rw [hx, hy] at hn
  norm_num at hn

/-! ## C9: at most one target per frame -/

/-- C9: in every frame at most one of the two uniforms differs from the
sentinel `(-1, -1)`.  With both buttons held the attractor uniform is
`(x, h - y)`, the repulsor uniform is the sentinel and the step adds no
repulsion term: the velocity is the boundary rule applied to gravity plus, when
the attractor passes the presence test, the attraction term.  With no button
held both uniforms are the sentinel and the step adds neither term. -/
theorem C9_targets_exclusive (normalize : Vec2 → Vec2) (f : FrameInput) (p : ParticleData) :
    ((frameUniforms f).uAttractTo = absent ∨ (frameUniforms f).uRepulseFrom = absent) ∧
    (f.button0 = true → f.button1 = true →
      (frameUniforms f).uAttractTo = ⟨f.cursorX, f.h - f.cursorY⟩ ∧
      (frameUniforms f).uRepulseFrom = absent ∧
      (CS_PARTICLES.main normalize (frameUniforms f) p).vel =
        ⟨bounce p.pos.x f.w
            (if 0 < f.cursorX ∧ 0 < (f.h : ℚ) - f.cursorY then
              p.vel + GRAVITY * f.dt +
                normalize (⟨f.cursorX, f.h - f.cursorY⟩ - p.pos) * ATTRACTION_MAG * f.dt
             else p.vel + GRAVITY * f.dt).x,
         bounce p.pos.y f.h
            (if 0 < f.cursorX ∧ 0 < (f.h : ℚ) - f.cursorY then
              p.vel + GRAVITY * f.dt +
                normalize (⟨f.cursorX, f.h - f.cursorY⟩ - p.pos) * ATTRACTION_MAG * f.dt
             else p.vel + GRAVITY * f.dt).y⟩) ∧
    (f.button0 = false → f.button1 = false →
      (frameUniforms f).uAttractTo = absent ∧
      (frameUniforms f).uRepulseFrom = absent ∧
      (CS_PARTICLES.main normalize (frameUniforms f) p).vel =
        ⟨bounce p.pos.x f.w (p.vel + GRAVITY * f.dt).x,
         bounce p.pos.y f.h (p.vel + GRAVITY * f.dt).y⟩) := by
  refine ⟨?_, fun h0 _ => ?_, fun h0 h1 => ?_⟩
  · cases hb0 : f.button0 <;> cases hb1 : f.button1 <;>
      simp [frameUniforms, frameTargets, hb0, hb1, absent]
  · have ht := frameTargets_button0 f h0
    have ha : (frameUniforms f).uAttractTo = ⟨f.cursorX, f.h - f.cursorY⟩ := by
      simp [frameUniforms, ht]
    have hr : (frameUniforms f).uRepulseFrom = absent := by
      simp [frameUniforms, ht]
    refine ⟨ha, hr, ?_⟩
    rw [main_vel]
    have hf : forces normalize (frameUniforms f) p =
        (if 0 < f.cursorX ∧ 0 < (f.h : ℚ) - f.cursorY then
              p.vel + GRAVITY * f.dt +
                normalize (⟨f.cursorX, f.h - f.cursorY⟩ - p.pos) * ATTRACTION_MAG * f.dt
             else p.vel + GRAVITY * f.dt) := by
      rw [forces_noRepulse normalize _ p hr, ha]
      rfl
    rw [hf]
    simp [frameUniforms]
  · have ha : (frameUniforms f).uAttractTo = absent := by
      simp [frameUniforms, frameTargets, h0, h1, absent]
    have hr : (frameUniforms f).uRepulseFrom = absent := by
      simp [frameUniforms, frameTargets, h0, h1, absent]
    refine ⟨ha, hr, ?_⟩
    rw [main_vel, forces_noTargets normalize _ p ha hr]
    simp [frameUniforms, GRAVITY]

/-- C9 witness: both buttons held with the cursor at `(300, 368)`, and no
button held, in a 1280 x 768 window. -/
theorem C9_targets_exclusive_witness :
    (frameUniforms ⟨1280, 768, 1/2, true, true, 300, 368⟩).uRepulseFrom = absent ∧
    (frameUniforms ⟨1280, 768, 1/2, false, false, 300, 368⟩).uAttractTo = absent :=
  ⟨((C9_targets_exclusive id ⟨1280, 768, 1/2, true, true, 300, 368⟩
      ⟨⟨100, 100⟩, ⟨0, 0⟩⟩).2.1 rfl rfl).2.1,
   ((C9_targets_exclusive id ⟨1280, 768, 1/2, false, false, 300, 368⟩
      ⟨⟨100, 100⟩, ⟨0, 0⟩⟩).2.2 rfl rfl).1⟩

/-! ## C5: buffer size and active prefix -/

theorem wrapInt32_of_range (n : Int) (h0 : 0 ≤ n) (h1 : n ≤ INT_MAX) : wrapInt32 n = n := by
  unfold wrapInt32
  unfold INT_MAX at h1
  rw [Int.emod_eq_of_lt (by linarith) (by linarith)]
  ring

theorem GetNumParticles_exact (t : Int) (h1 : 1 ≤ t) (h10 : t ≤ 10) :
    GetNumParticles t = t * 1024 * 1024 := by
  unfold GetNumParticles
  rw [wrapInt32_of_range (t * 1024) (by linarith) (by unfold INT_MAX; linarith)]
  rw [wrapInt32_of_range (t * 1024 * 1024) (by linarith) (by unfold INT_MAX; linarith)]

/-- C5: `GeneratePaticles` uploads exactly `MaxMillionParticles * 1024 * 1024
= 10 * 1024 * 1024` records, a product that fits an `int`; and for every tier
`t` with `1 ≤ t ≤ 10`, `GetNumParticles() = t * 1024 * 1024` is a multiple of
1024, the dispatch has `t * 1024` work groups whose 1024 invocations each add
up to the number of vertices drawn, `t * 1024 * 1024`, which does not exceed
the number of records uploaded; these are the counts a frame passes to
`glDispatchCompute` and `glDrawArrays`. -/
theorem C5_buffer_sizing (linearRand : Nat → Vec2 → Vec2 → Vec2) (w h : Int)
    (compute draw : Nat) (t : Int) (h1 : 1 ≤ t) (h10 : t ≤ 10) :
    (GeneratePaticles linearRand w h).length = 10 * 1024 * 1024 ∧
    ((GeneratePaticles linearRand w h).length : Int) = MaxMillionParticles * 1024 * 1024 ∧
    MaxMillionParticles * 1024 ≤ INT_MAX ∧
    MaxMillionParticles * 1024 * 1024 ≤ INT_MAX ∧
    GetNumParticles t = t * 1024 * 1024 ∧
    GetNumParticles t % 1024 = 0 ∧
    dispatchGroups t = t * 1024 ∧
    invocations (dispatchGroups t) = drawCount t ∧
    drawCount t = t * 1024 * 1024 ∧
    drawCount t ≤ ((GeneratePaticles linearRand w h).length : Int) ∧
    Call.glDispatchCompute (t * 1024) ∈ frameCalls compute draw t ∧
    Call.glDrawArrays (t * 1024 * 1024) ∈ frameCalls compute draw t := by
  have hlen : (GeneratePaticles linearRand w h).length = 10 * 1024 * 1024 := by
    simp only [GeneratePaticles, List.length_map, List.length_range]
    rw [← GetNumParticles, GetNumParticles_exact MaxMillionParticles (by decide) (by decide)]
    rfl
  have hn := GetNumParticles_exact t h1 h10
  have hg : dispatchGroups t = t * 1024 := by
    unfold dispatchGroups
    rw [hn, Int.mul_tdiv_cancel _ (by decide)]
  refine ⟨hlen, ?_, by decide, by decide, hn, ?_, hg, ?_, hn, ?_, ?_, ?_⟩
  · rw [hlen]; rfl
  · rw [hn]; exact Int.mul_emod_left _ _
  · rw [hg]; unfold invocations drawCount; rw [hn]
  · rw [hlen]; unfold drawCount; rw [hn]; push_cast; linarith
  · rw [← hg]; simp [frameCalls]
  · have hd : drawCount t = t * 1024 * 1024 := hn
    rw [← hd]; simp [frameCalls]

/-- C5 witness: tier 3 dispatches 3072 work groups and draws `3 * 1024 * 1024`
vertices. -/
theorem C5_buffer_sizing_witness :
    dispatchGroups 3 = 3072 ∧ drawCount 3 = 3 * 1024 * 1024 :=
  ⟨(C5_buffer_sizing (fun _ lo _ => lo) 1280 768 5 3 3 (by decide)
      (by decide)).2.2.2.2.2.2.1,
   (C5_buffer_sizing (fun _ lo _ => lo) 1280 768 5 3 3 (by decide)
      (by decide)).2.2.2.2.2.2.2.2.1⟩

/-! ## C10: the return value of `Start` -/

/-- C10: `Start` returns `false` on every path that returns: when `glfwInit`
fails, when window creation fails, and after the frame loop has ended. -/
theorem C10_start_returns_false (env : Env) : (Start env).ret = false := by
  unfold Start
  cases env.glfwInit <;> cases env.windowCreated <;> simp [boolOfInt]

/-! ## C7: the failure paths of the shader loaders -/

theorem le_foldr_max (l : List Nat) (x : Nat) (hx : x ∈ l) : x ≤ l.foldr max 0 := by
  induction l with
  | nil => cases hx
  | cons a rest ih =>
    rw [List.foldr_cons]
    rcases List.mem_cons.mp hx with h | h
    · rw [h]; exact le_max_left _ _
    · exact le_trans (ih h) (le_max_right _ _)

theorem GLState.lt_fresh (st : GLState) (x : Nat) (hx : x ∈ st.names) : x < st.fresh :=
  Nat.lt_succ_of_le (le_foldr_max st.names x hx)

theorem GLState.fresh_ne_zero (st : GLState) : st.fresh ≠ 0 := Nat.succ_ne_zero _

theorem GLState.fresh_not_shader (st : GLState) : st.fresh ∉ st.shaders := by
  intro h
  exact lt_irrefl _ (st.lt_fresh _ (by simp [GLState.names, h]))

theorem GLState.isAttached_eq_false_iff (st : GLState) (s : Nat) :
    st.isAttached s = false ↔ ∀ a ∈ st.attached, a.2 ≠ s := by
  simp [GLState.isAttached]

theorem GLState.fresh_not_attached (st : GLState) : st.isAttached st.fresh = false := by
  rw [GLState.isAttached_eq_false_iff]
  intro a ha he
  have : a.2 ∈ st.names := by
    simp only [GLState.names, List.mem_append, List.mem_map]
    exact Or.inl (Or.inr ⟨a, ha, rfl⟩)
  rw [he] at this
  exact lt_irrefl _ (st.lt_fresh _ this)

/-- A failed `LoadShader` leaves the shader and program objects as it found them. -/
theorem LoadShader_fail_gl (d : Driver) (type : Nat) (source : String) (w : World)
    (hc : d.compileStatus type source = false) :
    (LoadShader d type source w).2.gl = w.gl := by
  have hna : GLState.isAttached
      { w.gl with shaders := w.gl.fresh :: w.gl.shaders } w.gl.fresh = false := by
    have := w.gl.fresh_not_attached
    simpa [GLState.isAttached] using this
  have hfilter :
      (w.gl.shaders.filter fun s => !decide (s = w.gl.fresh)) = w.gl.shaders := by
    rw [List.filter_eq_self]
    intro a ha
    have : a ≠ w.gl.fresh := fun h => w.gl.fresh_not_shader (h ▸ ha)
    simpa using this
  simp only [LoadShader, glCreateShader, hc, if_true, ERRO, glDeleteShader,
    List.mem_cons, true_or, hna, Bool.false_eq_true, if_false]
  simp [List.filter_cons, hfilter]

theorem attachAll_spec (P : Nat) (l : List Nat) :
    ∀ g : GLState,
      (attachAll P l g).programs = g.programs ∧
      (attachAll P l g).shaders = g.shaders ∧
      (attachAll P l g).flagged = g.flagged ∧
      ∀ a ∈ (attachAll P l g).attached, a ∈ g.attached ∨ (a.1 = P ∧ a.2 ∈ l) := by
  induction l with
  | nil => intro g; exact ⟨rfl, rfl, rfl, fun a ha => Or.inl ha⟩
  | cons s rest ih =>
    intro g
    obtain ⟨i1, i2, i3, i4⟩ := ih (glAttachShader P s g)
    have e : attachAll P (s :: rest) g = attachAll P rest (glAttachShader P s g) := rfl
    rw [e, i1, i2, i3]
    unfold glAttachShader at i4 ⊢
    split_ifs at i4 ⊢ with hcond
    · refine ⟨rfl, rfl, rfl, fun a ha => ?_⟩
      rcases i4 a ha with h | h
      · rcases List.mem_cons.mp h with h' | h'
        · right; rw [h']; exact ⟨rfl, List.mem_cons_self _ _⟩
        · left; exact h'
      · right; exact ⟨h.1, List.mem_cons_of_mem _ h.2⟩
    · refine ⟨rfl, rfl, rfl, fun a ha => ?_⟩
      rcases i4 a ha with h | h
      · left; exact h
      · right; exact ⟨h.1, List.mem_cons_of_mem _ h.2⟩

theorem sweep_programs (g : GLState) : g.sweep.programs = g.programs := rfl

theorem sweep_attached (g : GLState) : g.sweep.attached = g.attached := rfl

theorem sweep_shaders_sub (g : GLState) (x : Nat) (hx : x ∈ g.sweep.shaders) :
    x ∈ g.shaders := by
  simp only [GLState.sweep] at hx
  exact (List.mem_filter.mp hx).1

theorem glDeleteShader_spec (s : Nat) (g : GLState)
    (hs : s ∈ g.shaders → g.isAttached s = false) :
    (glDeleteShader s g).programs = g.programs ∧
    (glDeleteShader s g).attached = g.attached ∧
    s ∉ (glDeleteShader s g).shaders ∧
    ∀ x ∈ (glDeleteShader s g).shaders, x ∈ g.shaders := by
  unfold glDeleteShader
  split_ifs with h1 h2
  · rw [hs h1] at h2; cases h2
  · refine ⟨rfl, rfl, ?_, fun x hx => (List.mem_filter.mp hx).1⟩
    simp [List.mem_filter]
  · exact ⟨rfl, rfl, h1, fun x hx => hx⟩

theorem deleteAll_spec (l : List Nat) :
    ∀ g : GLState, (∀ s ∈ l, s ∈ g.shaders → g.isAttached s = false) →
      (deleteAll l g).programs = g.programs ∧
      (deleteAll l g).attached = g.attached ∧
      (∀ s ∈ l, s ∉ (deleteAll l g).shaders) ∧
      ∀ x ∈ (deleteAll l g).shaders, x ∈ g.shaders := by
  induction l with
  | nil => intro g _; exact ⟨rfl, rfl, fun s hs => absurd hs (List.not_mem_nil s), fun x hx => hx⟩
  | cons s rest ih =>
    intro g hg
    obtain ⟨d1, d2, d3, d4⟩ := glDeleteShader_spec s g (hg s (List.mem_cons_self _ _))
    have hrest : ∀ s' ∈ rest, s' ∈ (glDeleteShader s g).shaders →
        (glDeleteShader s g).isAttached s' = false := by
      intro s' hs' hlive
      have := hg s' (List.mem_cons_of_mem _ hs') (d4 s' hlive)
      simpa [GLState.isAttached, d2] using this
    obtain ⟨i1, i2, i3, i4⟩ := ih (glDeleteShader s g) hrest
    have e : deleteAll (s :: rest) g = deleteAll rest (glDeleteShader s g) := rfl
    rw [e]
    refine ⟨i1.trans d1, i2.trans d2, fun s' hs' => ?_, fun x hx => d4 x (i4 x hx)⟩
    rcases List.mem_cons.mp hs' with h | h
    · rw [h]; exact fun hx => d3 (i4 s hx)
    · exact i3 s' h

theorem glDetachShader_spec (P s : Nat) (g : GLState) :
    (glDetachShader P s g).programs = g.programs ∧
    (P, s) ∉ (glDetachShader P s g).attached ∧
    ∀ a ∈ (glDetachShader P s g).attached, a ∈ g.attached := by
  unfold glDetachShader
  split_ifs with h
  · rw [sweep_programs, sweep_attached]
    refine ⟨rfl, ?_, fun a ha => (List.mem_filter.mp ha).1⟩
    simp [List.mem_filter]
  · exact ⟨rfl, h, fun a ha => ha⟩

theorem detachAll_spec (P : Nat) (l : List Nat) :
    ∀ g : GLState,
      (detachAll P l g).programs = g.programs ∧
      (∀ s ∈ l, (P, s) ∉ (detachAll P l g).attached) ∧
      ∀ a ∈ (detachAll P l g).attached, a ∈ g.attached := by
  induction l with
  | nil => intro g; exact ⟨rfl, fun s hs => absurd hs (List.not_mem_nil s), fun a ha => ha⟩
  | cons s rest ih =>
    intro g
    obtain ⟨d1, d2, d3⟩ := glDetachShader_spec P s g
    obtain ⟨i1, i2, i3⟩ := ih (glDetachShader P s g)
    have e : detachAll P (s :: rest) g = detachAll P rest (glDetachShader P s g) := rfl
    rw [e]
    refine ⟨i1.trans d1, fun s' hs' => ?_, fun a ha => d3 a (i3 a ha)⟩
    rcases List.mem_cons.mp hs' with h | h
    · rw [h]; exact fun hx => d2 (i3 _ hx)
    · exact i2 s' h

theorem CreateAndLinkProgram_fail (d : Driver) (shaders : List Nat) (w : World)
    (hl : d.linkStatus (attachAll (glCreateProgram w.gl).1 shaders (glCreateProgram w.gl).2)
      (glCreateProgram w.gl).1 = false) :
    CreateAndLinkProgram d shaders w =
      (0, ERRO ("Program linking failed: " ++
            d.programInfoLog (attachAll (glCreateProgram w.gl).1 shaders (glCreateProgram w.gl).2)
              (glCreateProgram w.gl).1)
          { w with gl := (deleteAll shaders (glDeleteProgram (glCreateProgram w.gl).1
              (attachAll (glCreateProgram w.gl).1 shaders (glCreateProgram w.gl).2))) }) := by
  simp only [CreateAndLinkProgram]
  rw [if_pos hl]

theorem CreateAndLinkProgram_ok (d : Driver) (shaders : List Nat) (w : World)
    (hl : d.linkStatus (attachAll (glCreateProgram w.gl).1 shaders (glCreateProgram w.gl).2)
      (glCreateProgram w.gl).1 = true) :
    CreateAndLinkProgram d shaders w =
      ((glCreateProgram w.gl).1,
        { w with gl := (detachAll (glCreateProgram w.gl).1 shaders
            (attachAll (glCreateProgram w.gl).1 shaders (glCreateProgram w.gl).2)) }) := by
  simp only [CreateAndLinkProgram]
  rw [if_neg (by simp [hl])]

theorem glDeleteProgram_spec (P : Nat) (g : GLState) (hP : P ∈ g.programs) :
    P ∉ (glDeleteProgram P g).programs ∧
    (∀ q ∈ (glDeleteProgram P g).programs, q ∈ g.programs) ∧
    (∀ q ∈ g.programs, q ≠ P → q ∈ (glDeleteProgram P g).programs) ∧
    (∀ a ∈ (glDeleteProgram P g).attached, a ∈ g.attached ∧ a.1 ≠ P) ∧
    ∀ x ∈ (glDeleteProgram P g).shaders, x ∈ g.shaders := by
  unfold glDeleteProgram
  rw [if_pos hP, sweep_programs, sweep_attached]
  refine ⟨?_, fun q hq => (List.mem_filter.mp hq).1, fun q hq hne => ?_, fun a ha => ?_,
    fun x hx => ?_⟩
  rotate_left 3
  · simp only [GLState.sweep] at hx
    exact (List.mem_filter.mp hx).1
  · simp [List.mem_filter]
  · simp [List.mem_filter, hq, hne]
  · have := List.mem_filter.mp ha
    exact ⟨this.1, by simpa using this.2⟩

/-- C7: over the model of live shader and program objects.
`LoadShader` returns 0 exactly when the compile status is false; in that case
the shader object it created is no longer live and one error-severity record
carrying the info log has been logged.  `CreateAndLinkProgram`, called with
handles whose live shaders are attached to no program yet (as they are at both
calls in `Start`, see `loadShaders_calls_unattached`), returns 0 exactly when
the link status is false; in that case the program object it created and every shader
passed to it are no longer live and an error-severity record has been logged;
when the link succeeds it returns the program it created, that program is live
and none of the passed shaders is attached to it. -/
theorem C7_shader_build_failure_path (d : Driver) (w : World) (type : Nat) (source : String)
    (shaders : List Nat)
    (hfree : ∀ s ∈ shaders, s ∈ w.gl.shaders → w.gl.isAttached s = false) :
    ((LoadShader d type source w).1 = 0 ↔ d.compileStatus type source = false) ∧
    (d.compileStatus type source = false →
      (glCreateShader w.gl).1 ∈ (glCreateShader w.gl).2.shaders ∧
      (glCreateShader w.gl).1 ∉ (LoadShader d type source w).2.gl.shaders ∧
      (LoadShader d type source w).2.log =
        w.log ++ [⟨Severity.error,
          "Shader compilation failed: " ++ d.shaderInfoLog type source⟩]) ∧
    ((CreateAndLinkProgram d shaders w).1 = 0 ↔
      d.linkStatus (attachAll (glCreateProgram w.gl).1 shaders (glCreateProgram w.gl).2)
        (glCreateProgram w.gl).1 = false) ∧
    (d.linkStatus (attachAll (glCreateProgram w.gl).1 shaders (glCreateProgram w.gl).2)
        (glCreateProgram w.gl).1 = false →
      (glCreateProgram w.gl).1 ∈ (glCreateProgram w.gl).2.programs ∧
      (glCreateProgram w.gl).1 ∉ (CreateAndLinkProgram d shaders w).2.gl.programs ∧
      (∀ s ∈ shaders, s ∉ (CreateAndLinkProgram d shaders w).2.gl.shaders) ∧
      (CreateAndLinkProgram d shaders w).2.log =
        w.log ++ [⟨Severity.error, "Program linking failed: " ++
          d.programInfoLog
            (attachAll (glCreateProgram w.gl).1 shaders (glCreateProgram w.gl).2)
            (glCreateProgram w.gl).1⟩]) ∧
    (d.linkStatus (attachAll (glCreateProgram w.gl).1 shaders (glCreateProgram w.gl).2)
        (glCreateProgram w.gl).1 = true →
      (CreateAndLinkProgram d shaders w).1 = (glCreateProgram w.gl).1 ∧
      (glCreateProgram w.gl).1 ∈ (CreateAndLinkProgram d shaders w).2.gl.programs ∧
      ∀ s ∈ shaders,
        ((glCreateProgram w.gl).1, s) ∉ (CreateAndLinkProgram d shaders w).2.gl.attached) := by
  have hP0 : (glCreateProgram w.gl).1 ≠ 0 := w.gl.fresh_ne_zero
  have hPin : (glCreateProgram w.gl).1 ∈ (glCreateProgram w.gl).2.programs := by
    simp [glCreateProgram]
  obtain ⟨a1, a2, a3, a4⟩ :=
    attachAll_spec (glCreateProgram w.gl).1 shaders (glCreateProgram w.gl).2
  refine ⟨?_, fun hc => ⟨?_, ?_, ?_⟩, ?_, fun hl => ⟨hPin, ?_⟩, fun hl => ?_⟩
  · -- LoadShader returns 0 iff the compile status is false
    cases hc : d.compileStatus type source
    · simp [LoadShader, hc]
    · simp [LoadShader, hc, glCreateShader, w.gl.fresh_ne_zero]
  · simp [glCreateShader]
  · rw [LoadShader_fail_gl d type source w hc]
    exact w.gl.fresh_not_shader
  · simp [LoadShader, hc, ERRO]
  · -- CreateAndLinkProgram returns 0 iff the link status is false
    cases hl : d.linkStatus (attachAll (glCreateProgram w.gl).1 shaders (glCreateProgram w.gl).2)
        (glCreateProgram w.gl).1
    · rw [CreateAndLinkProgram_fail d shaders w hl]; simp
    · rw [CreateAndLinkProgram_ok d shaders w hl]; simp [hP0]
  · -- failed link
    rw [CreateAndLinkProgram_fail d shaders w hl]
    simp only [ERRO]
    have hPin1 : (glCreateProgram w.gl).1 ∈
        (attachAll (glCreateProgram w.gl).1 shaders (glCreateProgram w.gl).2).programs := by
      rw [a1]; exact hPin
    obtain ⟨p1, _, _, p4, p5⟩ := glDeleteProgram_spec _ _ hPin1
    have hfree2 : ∀ s ∈ shaders,
        s ∈ (glDeleteProgram (glCreateProgram w.gl).1
          (attachAll (glCreateProgram w.gl).1 shaders (glCreateProgram w.gl).2)).shaders →
        (glDeleteProgram (glCreateProgram w.gl).1
        (attachAll (glCreateProgram w.gl).1 shaders (glCreateProgram w.gl).2)).isAttached s
          = false := by
      intro s hs hlive
      have hlive0 : s ∈ w.gl.shaders := by
        have := p5 s hlive
        rw [a2] at this
        simpa [glCreateProgram] using this
      rw [GLState.isAttached_eq_false_iff]
      intro a ha
      obtain ⟨h1, h2⟩ := p4 a ha
      rcases a4 a h1 with h | h
      · have hw := (GLState.isAttached_eq_false_iff w.gl s).mp (hfree s hs hlive0)
        exact hw a (by simpa [glCreateProgram] using h)
      · exact absurd h.1 h2
    obtain ⟨d1, _, d3, _⟩ := deleteAll_spec shaders _ hfree2
    refine ⟨?_, d3, trivial⟩
    show (glCreateProgram w.gl).1 ∉ (deleteAll shaders _).programs
    rw [d1]; exact p1
  · -- successful link
    rw [CreateAndLinkProgram_ok d shaders w hl]
    obtain ⟨t1, t2, _⟩ := detachAll_spec (glCreateProgram w.gl).1 shaders
      (attachAll (glCreateProgram w.gl).1 shaders (glCreateProgram w.gl).2)
    refine ⟨rfl, ?_, t2⟩
    show (glCreateProgram w.gl).1 ∈ (detachAll _ shaders _).programs
    rw [t1, a1]; exact hPin

/-- C7 witness: two live unattached shaders and a driver on which no program
links. -/
theorem C7_shader_build_failure_path_witness :
    (CreateAndLinkProgram noLinkDriver [1, 2] twoShaders).1 = 0 ∧
    ∀ s ∈ [1, 2], s ∉ (CreateAndLinkProgram noLinkDriver [1, 2] twoShaders).2.gl.shaders :=
  ⟨(C7_shader_build_failure_path noLinkDriver twoShaders GL_VERTEX_SHADER VS_PARTICLES [1, 2]
      (by decide)).2.2.1.mpr rfl,
   ((C7_shader_build_failure_path noLinkDriver twoShaders GL_VERTEX_SHADER VS_PARTICLES [1, 2]
      (by decide)).2.2.2.1 rfl).2.2.1⟩

/-! ## The calls of `Start` meet the precondition on the shader handles -/

theorem LoadShader_attached (d : Driver) (type : Nat) (source : String) (w : World) :
    (LoadShader d type source w).2.gl.attached = w.gl.attached := by
  cases hc : d.compileStatus type source
  · rw [LoadShader_fail_gl d type source w hc]
  · simp [LoadShader, hc, glCreateShader]

theorem deleteAll_attached (l : List Nat) :
    ∀ g : GLState, (deleteAll l g).attached = g.attached := by
  induction l with
  | nil => intro g; rfl
  | cons s rest ih =>
    intro g
    have e : deleteAll (s :: rest) g = deleteAll rest (glDeleteShader s g) := rfl
    rw [e, ih]
    unfold glDeleteShader
    split_ifs <;> rfl

/-- Started without attachments, `CreateAndLinkProgram` ends without attachments. -/
theorem CreateAndLinkProgram_attached_nil (d : Driver) (shaders : List Nat) (w : World)
    (hw : w.gl.attached = []) : (CreateAndLinkProgram d shaders w).2.gl.attached = [] := by
  obtain ⟨a1, _, _, a4⟩ :=
    attachAll_spec (glCreateProgram w.gl).1 shaders (glCreateProgram w.gl).2
  have h0 : (glCreateProgram w.gl).2.attached = [] := by simp [glCreateProgram, hw]
  rw [List.eq_nil_iff_forall_not_mem]
  intro a ha
  cases hl : d.linkStatus (attachAll (glCreateProgram w.gl).1 shaders (glCreateProgram w.gl).2)
      (glCreateProgram w.gl).1
  · rw [CreateAndLinkProgram_fail d shaders w hl] at ha
    have ha' : a ∈ (deleteAll shaders (glDeleteProgram (glCreateProgram w.gl).1
        (attachAll (glCreateProgram w.gl).1 shaders (glCreateProgram w.gl).2))).attached := ha
    rw [deleteAll_attached] at ha'
    have hPin : (glCreateProgram w.gl).1 ∈
        (attachAll (glCreateProgram w.gl).1 shaders (glCreateProgram w.gl).2).programs := by
      rw [a1]; simp [glCreateProgram]
    obtain ⟨h1, h2⟩ := (glDeleteProgram_spec _ _ hPin).2.2.2.1 a ha'
    rcases a4 a h1 with h | h
    · rw [h0] at h; cases h
    · exact h2 h.1
  · rw [CreateAndLinkProgram_ok d shaders w hl] at ha
    have ha' : a ∈ (detachAll (glCreateProgram w.gl).1 shaders
        (attachAll (glCreateProgram w.gl).1 shaders (glCreateProgram w.gl).2)).attached := ha
    obtain ⟨_, t2, t3⟩ := detachAll_spec (glCreateProgram w.gl).1 shaders
      (attachAll (glCreateProgram w.gl).1 shaders (glCreateProgram w.gl).2)
    rcases a4 a (t3 a ha') with h | h
    · rw [h0] at h; cases h
    · apply t2 a.2 h.2
      have e : ((glCreateProgram w.gl).1, a.2) = a := by rw [← h.1]
      rw [e]; exact ha'

/-- At both calls of `CreateAndLinkProgram` in `Start` no shader is attached to
any program, so no passed handle is. -/
theorem loadShaders_calls_unattached (d : Driver) :
    (∀ s : Nat,
      (LoadShader d GL_FRAGMENT_SHADER FS_PARTICLES
        (LoadShader d GL_VERTEX_SHADER VS_PARTICLES ⟨GLState.empty, []⟩).2).2.gl.isAttached s
        = false) ∧
    (∀ s : Nat,
      (LoadShader d GL_COMPUTE_SHADER CS_PARTICLES.source
        (CreateAndLinkProgram d
          [(LoadShader d GL_VERTEX_SHADER VS_PARTICLES ⟨GLState.empty, []⟩).1,
           (LoadShader d GL_FRAGMENT_SHADER FS_PARTICLES
            (LoadShader d GL_VERTEX_SHADER VS_PARTICLES ⟨GLState.empty, []⟩).2).1]
          (LoadShader d GL_FRAGMENT_SHADER FS_PARTICLES
            (LoadShader d GL_VERTEX_SHADER VS_PARTICLES ⟨GLState.empty, []⟩).2).2).2).2.gl.isAttached
        s = false) := by
  have h2 : (LoadShader d GL_FRAGMENT_SHADER FS_PARTICLES
      (LoadShader d GL_VERTEX_SHADER VS_PARTICLES ⟨GLState.empty, []⟩).2).2.gl.attached = [] := by
    rw [LoadShader_attached, LoadShader_attached]; rfl
  constructor
  · intro s
    rw [GLState.isAttached_eq_false_iff, h2]
    intro a ha; cases ha
  · intro s
    rw [GLState.isAttached_eq_false_iff, LoadShader_attached,
      CreateAndLinkProgram_attached_nil d _ _ h2]
    intro a ha; cases ha

/-! ## C8: the stored handles and the frame loop -/

end particles
